import Mathlib

/-!
Verification development for the backbone specification/filter compiler:
a shallow embedding of the specification tree, the two filter surface
syntaxes, the value coercion rules, the sort grammar, and the backend
translators, together with theorems settling the frozen claims.
-/

namespace Backbone

/-- Values reachable during parsing and evaluation.  Mirrors the Python
value universe the subsystem touches: `None`, `bool`, `int`, `float`
(modelled exactly as a rational, since only decimal-literal parsing and
order/equality comparisons occur), `str`, `list`, and the opaque bound
methods that `getattr` can return when a field name collides with an
attribute of the candidate's own type (for a plain dict: `items`,
`keys`, `get`, ...).  A bound method is identified by the attribute
name it was fetched under. -/
inductive Value where
  | null : Value
  | bool (b : Bool) : Value
  | int (n : Int) : Value
  | float (q : Rat) : Value
  | str (s : String) : Value
  | list (vs : List Value) : Value
  | boundMethod (name : String) : Value

/-- ASCII whitespace recognised by Python's `str.strip()` default. -/
def isSpaceCh (c : Char) : Bool :=
  c = ' ' || c = '\t' || c = '\n' || c = '\r' || c = '\x0b' || c = '\x0c'

/-- Drop leading whitespace, as the left half of Python `str.strip()`. -/
def stripLead (cs : List Char) : List Char :=
  cs.dropWhile isSpaceCh

/-- Drop trailing whitespace, as the right half of Python `str.strip()`. -/
def stripTrail (cs : List Char) : List Char :=
  (cs.reverse.dropWhile isSpaceCh).reverse

/-- Python `str.strip()` on a character list. -/
def pyStripCh (cs : List Char) : List Char :=
  stripLead (stripTrail cs)

/-- Python `str.strip()`. -/
def pyStrip (s : String) : String :=
  String.mk (pyStripCh s.data)

/-- Python `str.lower()` (ASCII case, which is all the parser compares). -/
def pyLower (s : String) : String :=
  String.mk (s.data.map Char.toLower)

/-- Python `str.split(sep)` (no maxsplit) on a character list; always
returns at least one piece, and `[""]` on the empty string, as in Python. -/
def splitCh (sep : Char) : List Char → List (List Char)
  | [] => [[]]
  | c :: cs =>
    if c = sep then [] :: splitCh sep cs
    else
      match splitCh sep cs with
      | [] => [[c]]
      | p :: ps => (c :: p) :: ps

/-- Python `str.split(sep, maxsplit)` on a character list. -/
def splitMaxCh (sep : Char) : Nat → List Char → List (List Char)
  | _, [] => [[]]
  | 0, cs => [cs]
  | n + 1, c :: cs =>
    if c = sep then [] :: splitMaxCh sep n cs
    else
      match splitMaxCh sep (n + 1) cs with
      | [] => [[c]]
      | p :: ps => (c :: p) :: ps

/-- Python `s.split("__", 1)` when the separator occurs: the part before
the leftmost `__` and everything after it; `none` when `__` does not
occur (mirroring the `"__" in field_expr` test). -/
def splitUnderscore2 : List Char → Option (List Char × List Char)
  | [] => none
  | '_' :: '_' :: rest => some ([], rest)
  | c :: rest =>
    match splitUnderscore2 rest with
    | some (a, b) => some (c :: a, b)
    | none => none

/-- Value of a digit run read in base 10. -/
def digitsToNat (cs : List Char) : Nat :=
  cs.foldl (fun a c => a * 10 + (c.toNat - 48)) 0

/-- Python `str.isdigit()` restricted to ASCII digits (the only digits the
repository's inputs use): nonempty and all characters `0`-`9`. -/
def isDigits (cs : List Char) : Bool :=
  !cs.isEmpty && cs.all Char.isDigit

/-- Python `int(...)` on the strings accepted by the parser's integer
check: an optional leading minus followed by digits. -/
def pyInt (s : String) : Int :=
  match s.data with
  | '-' :: rest => -(digitsToNat rest : Int)
  | cs => (digitsToNat cs : Int)

/-- Consume an optional sign, returning it as `1` or `-1`. -/
def parseSign : List Char → Int × List Char
  | '-' :: rest => (-1, rest)
  | '+' :: rest => (1, rest)
  | cs => (1, cs)

/-- Split a character list into its leading digit run and the remainder. -/
def takeDigits (cs : List Char) : List Char × List Char :=
  (cs.takeWhile Char.isDigit, cs.dropWhile Char.isDigit)

/-- Core of CPython `float(...)` on a stripped character list: optional
sign, a mantissa of digits with an optional dot (at least one digit), and
an optional exponent.  Underscore digit grouping and the `inf`/`nan`
words are out of scope (the caller only reaches this with a `.` present). -/
def pyFloatCore? (cs0 : List Char) : Option Rat :=
  let (sign, cs1) := parseSign cs0
  let (ip, cs2) := takeDigits cs1
  let (fp, cs3) :=
    match cs2 with
    | '.' :: rest => takeDigits rest
    | _ => ([], cs2)
  let hadDot : Bool := match cs2 with | '.' :: _ => true | _ => false
  let rest := if hadDot then cs3 else cs2
  if ip.isEmpty && fp.isEmpty then none
  else
    let mant : Rat :=
      (digitsToNat ip : Rat) + (digitsToNat fp : Rat) / ((10 : Rat) ^ fp.length)
    match rest with
    | [] => some ((sign : Rat) * mant)
    | 'e' :: erest =>
      let (es, cs4) := parseSign erest
      let (ed, cs5) := takeDigits cs4
      if ed.isEmpty || !cs5.isEmpty then none
      else some ((sign : Rat) * mant * (10 : Rat) ^ (es * (digitsToNat ed : Int)))
    | 'E' :: erest =>
      let (es, cs4) := parseSign erest
      let (ed, cs5) := takeDigits cs4
      if ed.isEmpty || !cs5.isEmpty then none
      else some ((sign : Rat) * mant * (10 : Rat) ^ (es * (digitsToNat ed : Int)))
    | _ => none

/-- CPython `float(...)` on a string: surrounding ASCII whitespace is
allowed around the decimal literal. -/
def pyFloat? (s : String) : Option Rat :=
  pyFloatCore? (pyStripCh s.data)

/-- FilterParser._convert_single_value: coerce one scalar token, in this
order: null words, booleans, integers, decimals containing a dot
(`float(...)` failures fall through), otherwise the string itself. -/
def convert_single_value (s : String) : Value :=
  if pyLower s == "null" || pyLower s == "none" || pyLower s == "" then
    .null
  else if pyLower s == "true" || pyLower s == "false" then
    .bool (pyLower s == "true")
  else if isDigits s.data ||
      (match s.data with | '-' :: r => isDigits r | _ => false) then
    .int (pyInt s)
  else if s.data.contains '.' then
    match pyFloat? s with
    | some q => .float q
    | none => .str s
  else
    .str s

/-- Coercion rules exactly as the specification words them, used as the
reference side of the refinement claim about `_convert_single_value`:
tokens case-insensitively equal to null/none/empty become null,
true/false become the booleans, all-digit tokens with an optional leading
minus become integers, dot-containing tokens that parse as decimals
become floats, and everything else stays a string. -/
def coerce_value_spec (s : String) : Value :=
  if pyLower s == "null" || pyLower s == "none" || pyLower s == "" then
    .null
  else if pyLower s == "true" then .bool true
  else if pyLower s == "false" then .bool false
  else if isDigits s.data ||
      (match s.data with | '-' :: r => isDigits r | _ => false) then
    .int (pyInt s)
  else if s.data.contains '.' then
    match pyFloat? s with
    | some q => .float q
    | none => .str s
  else
    .str s

/-- Numeric view of a value, reflecting Python's cross-type numeric
comparisons: booleans count as 0/1, integers and floats as rationals. -/
def toNum? : Value → Option Rat
  | .bool b => some (if b then 1 else 0)
  | .int n => some (n : Rat)
  | .float q => some q
  | _ => none

mutual

/-- Python `==` on the modelled values: numbers compare across bool/int/
float, `None` equals only `None`, strings structurally, lists pointwise. -/
def pyEq : Value → Value → Bool
  | a, b =>
    match toNum? a, toNum? b with
    | some x, some y => x == y
    | _, _ =>
      match a, b with
      | .null, .null => true
      | .str s, .str t => s == t
      | .list xs, .list ys => pyEqList xs ys
      | .boundMethod m, .boundMethod n => m == n
      | _, _ => false

/-- Pointwise Python `==` on lists of values. -/
def pyEqList : List Value → List Value → Bool
  | [], [] => true
  | x :: xs, y :: ys => pyEq x y && pyEqList xs ys
  | _, _ => false

end

/-- Python ordering comparison: defined between numbers (bool/int/float)
and between strings; every other pairing (None, lists, mixed kinds)
raises `TypeError`, modelled as `none`. -/
def pyCmp (a b : Value) : Option Ordering :=
  match toNum? a, toNum? b with
  | some x, some y =>
    some (if x < y then .lt else if x = y then .eq else .gt)
  | _, _ =>
    match a, b with
    | .str s, .str t =>
      some (if s < t then .lt else if s = t then .eq else .gt)
    | _, _ => none

/-- Python `x < y` under the `try/except TypeError: return False` wrapper
used by the comparison specifications. -/
def pyLtB (a b : Value) : Bool :=
  match pyCmp a b with
  | some .lt => true
  | _ => false

/-- Python `x <= y` under the same `TypeError`-to-false wrapper. -/
def pyLeB (a b : Value) : Bool :=
  match pyCmp a b with
  | some .lt => true
  | some .eq => true
  | _ => false

mutual

/-- Python `repr(...)` of a value (string rendering of floats and the
exact quote placement are abstract stand-ins; no claim compares them). -/
def pyRepr : Value → String
  | .null => "None"
  | .bool true => "True"
  | .bool false => "False"
  | .int n => toString n
  | .float q => toString q
  | .str s => "\x27" ++ s ++ "\x27"
  | .list vs => "[" ++ pyReprJoin vs ++ "]"
  | .boundMethod n => "<built-in method " ++ n ++ " of dict object>"

/-- Comma-joined `repr` of list elements. -/
def pyReprJoin : List Value → String
  | [] => ""
  | [v] => pyRepr v
  | v :: rest => pyRepr v ++ ", " ++ pyReprJoin rest

end

/-- Python `str(...)` of a value (identical to `repr` except on strings). -/
def pyStr : Value → String
  | .str s => s
  | v => pyRepr v

/-- Python substring containment `needle in hay` on character lists. -/
def isPrefixCh : List Char → List Char → Bool
  | [], _ => true
  | _ :: _, [] => false
  | a :: as, b :: bs => a == b && isPrefixCh as bs

/-- Python `needle in hay` for strings, as character lists. -/
def containsSubCh (hay needle : List Char) : Bool :=
  isPrefixCh needle hay ||
    match hay with
    | [] => false
    | _ :: t => containsSubCh t needle

/-- Leaf filter specifications, one constructor per concrete
`FilterSpecification` subclass.  `betweenS` keeps the two bound values
the way `BetweenSpecification.__init__` stores `min_value`/`max_value`. -/
inductive FilterSpec where
  | eqS (field : String) (value : Value)
  | neS (field : String) (value : Value)
  | ltS (field : String) (value : Value)
  | lteS (field : String) (value : Value)
  | gtS (field : String) (value : Value)
  | gteS (field : String) (value : Value)
  | likeS (field : String) (value : Value)
  | inS (field : String) (value : Value)
  | betweenS (field : String) (minV maxV : Value)
  | isNullS (field : String)
  | isNotNullS (field : String)

/-- Field name stored on a leaf (`self.field`). -/
def specField : FilterSpec → String
  | .eqS f _ => f
  | .neS f _ => f
  | .ltS f _ => f
  | .lteS f _ => f
  | .gtS f _ => f
  | .gteS f _ => f
  | .likeS f _ => f
  | .inS f _ => f
  | .betweenS f _ _ => f
  | .isNullS f => f
  | .isNotNullS f => f

/-- Operator tag stored on a leaf (`self.operator`). -/
def specOperator : FilterSpec → String
  | .eqS _ _ => "eq"
  | .neS _ _ => "ne"
  | .ltS _ _ => "lt"
  | .lteS _ _ => "lte"
  | .gtS _ _ => "gt"
  | .gteS _ _ => "gte"
  | .likeS _ _ => "like"
  | .inS _ _ => "in"
  | .betweenS _ _ _ => "between"
  | .isNullS _ => "is_null"
  | .isNotNullS _ => "is_not_null"

/-- Value slot of a leaf's `to_expression()` output (`self.value`):
`between` serialises its ordered pair as a two-element list, the null
tests carry `None`. -/
def exprValue : FilterSpec → Value
  | .eqS _ v => v
  | .neS _ v => v
  | .ltS _ v => v
  | .lteS _ v => v
  | .gtS _ v => v
  | .gteS _ v => v
  | .likeS _ v => v
  | .inS _ v => v
  | .betweenS _ a b => .list [a, b]
  | .isNullS _ => .null
  | .isNotNullS _ => .null

/-- The `_compare_values` override of each leaf class, applied to the
candidate's field value.  `lt`/`lte`/`gt`/`gte` and `between` swallow
`TypeError` into `False`; `like` lower-cases both `str(...)` renderings
and tests substring containment after rejecting a `None` field value;
`in` is list membership (the parser only ever stores a list here). -/
def compareValues : FilterSpec → Value → Bool
  | .eqS _ v, fv => pyEq fv v
  | .neS _ v, fv => !(pyEq fv v)
  | .ltS _ v, fv => pyLtB fv v
  | .lteS _ v, fv => pyLeB fv v
  | .gtS _ v, fv => pyLtB v fv
  | .gteS _ v, fv => pyLeB v fv
  | .likeS _ v, fv =>
    match fv with
    | .null => false
    | _ => containsSubCh (pyLower (pyStr fv)).data (pyLower (pyStr v)).data
  | .inS _ v, fv =>
    match v with
    | .list vs => vs.any (fun e => pyEq fv e)
    | _ => false
  | .betweenS _ mn mx, fv =>
    match pyCmp mn fv with
    | some .lt => pyLeB fv mx
    | some .eq => pyLeB fv mx
    | _ => false
  | .isNullS _, fv => match fv with | .null => true | _ => false
  | .isNotNullS _, fv => match fv with | .null => false | _ => true

/-- Attribute names of Python's `dict` type itself (its plain-named
methods).  `getattr` on a plain dict resolves these to bound methods;
dunder attributes also exist but no identifier-style field name
collides with them, so the plain-named methods are the modelled set. -/
def dictAttrNames : List String :=
  ["keys", "values", "items", "get", "pop", "popitem", "clear",
   "update", "setdefault", "copy", "fromkeys"]

/-- Candidates evaluated against specifications.  An `obj` exposes its
fields as attributes; a `pydict` is a plain dictionary, which stores its
data as mapping items rather than attributes, so Python's `getattr`
never reaches the items — it can only find the dict type's own
attributes (bound methods). -/
inductive Candidate where
  | obj (attrs : List (String × Value))
  | pydict (entries : List (String × Value))

/-- Python `getattr(candidate, field)`: attribute lookup only.  A missing
attribute raises `AttributeError`, modelled as `none`.  On a plain dict
the items are reachable only by subscription, so the lookup ignores
them; a field naming one of the dict type's own attributes resolves to
the corresponding bound method. -/
def pyGetattr? : Candidate → String → Option Value
  | .obj attrs, f => attrs.lookup f
  | .pydict _, f =>
    if dictAttrNames.contains f then some (.boundMethod f) else none

/-- FilterSpecification.is_satisfied_by: look the field up with
`getattr` and compare; `AttributeError` (no value) yields `False`. -/
def isSatisfiedBy (s : FilterSpec) (c : Candidate) : Bool :=
  match pyGetattr? c (specField s) with
  | none => false
  | some fv => compareValues s fv

/-- Specification trees: leaves plus the binary `AND`/`OR` composites
and the unary `NOT` from base_specification. -/
inductive Spec where
  | leaf (f : FilterSpec)
  | andS (left right : Spec)
  | orS (left right : Spec)
  | notS (inner : Spec)

/-- Direct in-memory evaluation of a specification tree
(AndSpecification/OrSpecification/NotSpecification semantics). -/
def specSat : Spec → Candidate → Bool
  | .leaf f, c => isSatisfiedBy f c
  | .andS l r, c => specSat l c && specSat r c
  | .orS l r, c => specSat l c || specSat r c
  | .notS s, c => !(specSat s c)

/-- Errors raised by the parsers and translators: the domain's
`InvalidValueObjectException` (structured fields `value_object_type`,
`invalid_value`, `code`; the display message is derived text and is not
modelled) and plain `ValueError` with its message. -/
inductive PyError where
  | invalidVO (valueObjectType : String) (invalidValue : String) (code : Nat)
  | valueError (msg : String)

/-- The canonical operator vocabulary,
`SpecificationFactory.supported_operators()`. -/
def supported_operators : List String :=
  ["eq", "ne", "lt", "lte", "gt", "gte", "like", "in", "between",
   "is_null", "is_not_null"]

/-- SpecificationFactory.create: dispatch on the operator token, with
the `between` arity check and the valueless null tests special-cased. -/
def create (field operator : String) (value : Value) :
    Except PyError FilterSpec :=
  if !(supported_operators.contains operator) then
    .error (.valueError ("Unsupported operator: " ++ operator))
  else if operator == "between" then
    match value with
    | .list [a, b] => .ok (.betweenS field a b)
    | _ => .error (.valueError "BETWEEN operator requires list/tuple with 2 values")
  else if operator == "is_null" then .ok (.isNullS field)
  else if operator == "is_not_null" then .ok (.isNotNullS field)
  else if operator == "eq" then .ok (.eqS field value)
  else if operator == "ne" then .ok (.neS field value)
  else if operator == "lt" then .ok (.ltS field value)
  else if operator == "lte" then .ok (.lteS field value)
  else if operator == "gt" then .ok (.gtS field value)
  else if operator == "gte" then .ok (.gteS field value)
  else if operator == "like" then .ok (.likeS field value)
  else .ok (.inS field value)

/-- FilterParser.supported_connectors. -/
def supported_connectors : List String := ["and", "or"]

/-- FilterParser.operator_mapping: the Django-style operator table as the
source writes it, each key mapped to itself. -/
def operator_mapping : List (String × String) :=
  [("gt", "gt"), ("gte", "gte"), ("lt", "lt"), ("lte", "lte"),
   ("eq", "eq"), ("ne", "ne"), ("like", "like"), ("ilike", "ilike"),
   ("in", "in"), ("between", "between"), ("isnull", "isnull"),
   ("isnotnull", "isnotnull")]

/-- Apply `operator_mapping` when the token is a key of it, as
`if operator in self.operator_mapping: operator = ...` does. -/
def mapOperator (op : String) : String :=
  match operator_mapping.lookup op with
  | some o => o
  | none => op

/-- FilterParser._parse_value: the null tests ignore the value, `in`
splits on `|` and coerces each stripped piece, `between` additionally
requires exactly two pieces (`InvalidValueObjectException` 11003010
carrying the raw string otherwise), anything else is a single coercion. -/
def parse_value (valueStr operator : String) : Except PyError Value :=
  if operator == "is_null" || operator == "is_not_null" then
    .ok .null
  else if operator == "in" then
    .ok (.list ((splitCh '|' valueStr.data).map
      (fun p => convert_single_value (String.mk (pyStripCh p)))))
  else if operator == "between" then
    let values := splitCh '|' valueStr.data
    if values.length ≠ 2 then
      .error (.invalidVO "BetweenValue" valueStr 11003010)
    else
      .ok (.list (values.map
        (fun p => convert_single_value (String.mk (pyStripCh p)))))
  else
    .ok (convert_single_value valueStr)

/-- One map-syntax entry of FilterParser._parse_dict_filters: split the
key on the first `__` (no `__` means operator `eq`), lower-case and remap
the operator token, validate it against the canonical vocabulary
(`InvalidValueObjectException` 11003008 on failure), then coerce the
value and build the leaf through the factory. -/
def parse_dict_entry (fieldExpr valueStr : String) :
    Except PyError FilterSpec :=
  let fo : String × String :=
    match splitUnderscore2 fieldExpr.data with
    | some (f, op) => (String.mk f, String.mk (op.map Char.toLower))
    | none => (fieldExpr, "eq")
  let operator := mapOperator fo.2
  if supported_operators.contains operator then
    (parse_value valueStr operator).bind (fun v => create fo.1 operator v)
  else
    .error (.invalidVO "FilterOperator" operator 11003008)

/-- Parse every map entry in order, stopping at the first failure. -/
def parseDictSpecs : List (String × String) → Except PyError (List FilterSpec)
  | [] => .ok []
  | (k, v) :: rest => do
    let s ← parse_dict_entry k v
    let ss ← parseDictSpecs rest
    .ok (s :: ss)

/-- FilterParser._parse_dict_filters: all map-syntax entries are combined
left to right with `AND` only; an empty map yields no specification. -/
def parse_dict_filters (filters : List (String × String)) :
    Except PyError (Option Spec) :=
  if filters.isEmpty then .ok none
  else do
    let specs ← parseDictSpecs filters
    match specs with
    | [] => .ok none
    | s :: rest =>
      .ok (some (rest.foldl (fun acc sp => Spec.andS acc (.leaf sp))
        (Spec.leaf s)))

/-- FilterParser._parse_single_filter: split on `,` with maxsplit 3,
require at least three segments (`InvalidValueObjectException` 11003007
carrying the raw entry), validate the operator (11003008) and, when a
truthy fourth segment exists, the connector (11003009), then coerce the
value and build the leaf. -/
def parse_single_filter (filterStr : String) :
    Except PyError (FilterSpec × Option String) :=
  match (splitMaxCh ',' 3 filterStr.data).map String.mk with
  | p0 :: p1 :: p2 :: rest =>
    let field := pyStrip p0
    let operator := pyLower (pyStrip p1)
    let valueStr := pyStrip p2
    let connector : Option String :=
      match rest with
      | p3 :: _ => some (pyLower (pyStrip p3))
      | [] => none
    if supported_operators.contains operator then
      match connector with
      | some c =>
        if c ≠ "" && !(supported_connectors.contains c) then
          .error (.invalidVO "LogicalConnector" c 11003009)
        else do
          let v ← parse_value valueStr operator
          let sp ← create field operator v
          .ok (sp, some c)
      | none => do
        let v ← parse_value valueStr operator
        let sp ← create field operator v
        .ok (sp, none)
    else
      .error (.invalidVO "FilterOperator" operator 11003008)
  | _ => .error (.invalidVO "Filter" filterStr 11003007)

/-- Parse every list-syntax entry in order, keeping each entry's
specification together with its (possibly absent) connector token. -/
def parseListPairs : List String →
    Except PyError (List (FilterSpec × Option String))
  | [] => .ok []
  | f :: rest => do
    let p ← parse_single_filter f
    let ps ← parseListPairs rest
    .ok (p :: ps)

/-- Join the running result with the next specification using a
connector token; any token other than `and`/`or` silently keeps the
running result, exactly as the `if/elif` chain in
`_combine_specifications` does (unreachable after validation). -/
def joinConn (c : String) (acc s : Spec) : Spec :=
  if c == "and" then .andS acc s
  else if c == "or" then .orS acc s
  else acc

/-- Loop body of FilterParser._combine_specifications: the i-th join
consumes `connectors[i-1]`, falling back to `and` once the recorded
connectors are exhausted. -/
def combineAux (acc : Spec) : List Spec → List String → Spec
  | [], _ => acc
  | s :: rest, conns =>
    combineAux (joinConn (conns.headD "and") acc s) rest (conns.drop 1)

/-- FilterParser._parse_list_filters: parse each entry, collect only the
truthy connectors (a missing or empty fourth segment records nothing),
and fold the specifications through `_combine_specifications`. -/
def parse_list_filters (filters : List String) :
    Except PyError (Option Spec) :=
  if filters.isEmpty then .ok none
  else do
    let pairs ← parseListPairs filters
    let specs := pairs.map (fun p => Spec.leaf p.1)
    let connectors := pairs.filterMap (fun p =>
      match p.2 with
      | some c => if c ≠ "" then some c else none
      | none => none)
    match specs with
    | [] => .ok none
    | [s] => .ok (some s)
    | s :: rest => .ok (some (combineAux s rest connectors))

/-- SortParser.parse_sort on a character list: empty or whitespace-only
input yields nothing, otherwise the stripped input splits on `,`; a
blank field yields nothing, a second segment must strip-lowercase to
`asc` or `desc` (`InvalidValueObjectException` 11003012 carrying the
normalised token otherwise), and a missing second segment defaults to
`asc`.  The result is the `to_sort_criteria()` list of the returned
specification. -/
def parseSortCh (cs : List Char) : Except PyError (Option (List (String × String))) :=
  if cs.isEmpty || (pyStripCh cs).isEmpty then .ok none
  else
    match splitCh ',' (pyStripCh cs) with
    | [] => .ok none
    | p0 :: rest =>
      let field := pyStripCh p0
      if field.isEmpty then .ok none
      else
        match rest with
        | [] => .ok (some [(String.mk field, "asc")])
        | p1 :: _ =>
          let dir := (pyStripCh p1).map Char.toLower
          if dir = "asc".data || dir = "desc".data then
            .ok (some [(String.mk field, String.mk dir)])
          else
            .error (.invalidVO "SortDirection" (String.mk dir) 11003012)

/-- SortParser.parse_sort on a string. -/
def parse_sort (s : String) : Except PyError (Option (List (String × String))) :=
  parseSortCh s.data

/-- Serialised expressions, one constructor per dictionary shape that
`to_expression()` produces: a leaf dictionary with keys
`field`/`operator`/`value`, a binary composite with keys
`operator`/`left`/`right`, and the `NOT` shape with keys
`operator`/`spec`. -/
inductive Expr where
  | filterE (field : String) (op : String) (value : Value)
  | binE (op : String) (left right : Expr)
  | notE (op : String) (inner : Expr)

/-- Keys of the dictionary each expression shape serialises to. -/
def exprKeys : Expr → List String
  | .filterE _ _ _ => ["field", "operator", "value"]
  | .binE _ _ _ => ["operator", "left", "right"]
  | .notE _ _ => ["operator", "spec"]

/-- Value stored under the `operator` key of an expression dictionary. -/
def exprOperator : Expr → String
  | .filterE _ op _ => op
  | .binE op _ _ => op
  | .notE op _ => op

/-- Specification.to_expression over a whole tree: composites serialise
with upper-case operator tags, leaves with their field/operator/value
triple. -/
def toExpression : Spec → Expr
  | .leaf f => .filterE (specField f) (specOperator f) (exprValue f)
  | .andS l r => .binE "AND" (toExpression l) (toExpression r)
  | .orS l r => .binE "OR" (toExpression l) (toExpression r)
  | .notS s => .notE "NOT" (toExpression s)

/-- MongoDB filter values: plain values, converted ObjectIds, nested
documents and arrays. -/
inductive MongoVal where
  | pv (x : Value)
  | oid (hex : String)
  | doc (entries : List (String × MongoVal))
  | arr (elems : List MongoVal)

/-- A MongoDB filter document (ordered key/value pairs). -/
abbrev MongoDocT := List (String × MongoVal)

/-- Python `re.escape`: every character other than an ASCII letter,
digit or underscore is preceded by a backslash. -/
def reEscape (s : String) : String :=
  String.mk (s.data.foldr
    (fun c acc =>
      if c.isAlphanum || c = '_' then c :: acc else '\\' :: c :: acc) [])

/-- A string the `bson.ObjectId` constructor accepts: 24 hex digits. -/
def isValidObjectId (s : String) : Bool :=
  s.data.length == 24 &&
    s.data.all (fun c => c.isDigit || ('a' ≤ c && c ≤ 'f') || ('A' ≤ c && c ≤ 'F'))

/-- String rendering used by the translator's `str(value)` once the
`_id` conversion may have replaced the value with an ObjectId. -/
def mongoValStr : MongoVal → String
  | .pv v => pyStr v
  | .oid h => h
  | _ => ""

/-- MongoDBSpecificationTranslator._translate_filter: `_id` string values
are converted to ObjectIds when syntactically valid, then the leaf
operator picks the native filter shape.  With the source's dispatch this
function is unreachable from `translate` (see the dispatch note below). -/
def mongoTranslateFilter : Expr → Except PyError MongoDocT
  | .filterE field op value =>
    let mv : MongoVal :=
      if field == "_id" then
        match value with
        | .str s => if isValidObjectId s then .oid s else .pv (.str s)
        | v => .pv v
      else .pv value
    if op == "eq" then .ok [(field, mv)]
    else if op == "ne" then .ok [(field, .doc [("$ne", mv)])]
    else if op == "lt" then .ok [(field, .doc [("$lt", mv)])]
    else if op == "lte" then .ok [(field, .doc [("$lte", mv)])]
    else if op == "gt" then .ok [(field, .doc [("$gt", mv)])]
    else if op == "gte" then .ok [(field, .doc [("$gte", mv)])]
    else if op == "like" then
      .ok [(field, .doc [("$regex", .pv (.str (reEscape (mongoValStr mv)))),
                         ("$options", .pv (.str "i"))])]
    else if op == "in" then .ok [(field, .doc [("$in", mv)])]
    else if op == "between" then
      match value with
      | .list (a :: b :: _) =>
        .ok [(field, .doc [("$gte", .pv a), ("$lte", .pv b)])]
      | _ => .error (.valueError "TypeError: between value is not a pair")
    else if op == "is_null" then .ok [(field, .pv .null)]
    else if op == "is_not_null" then .ok [(field, .doc [("$ne", .pv .null)])]
    else .error (.valueError ("Unsupported filter operator: " ++ op))
  | _ => .error (.valueError "KeyError: field")

/-- MongoDBSpecificationTranslator._translate_expression together with
`_translate_composite`: the source routes to the composite branch
whenever the dictionary has an `operator` key — which every
`to_expression()` dictionary, leaf or composite, does — so a leaf
reaches the composite `if/elif` chain and falls through to the
`Unsupported composite operator` ValueError; the `_translate_filter`
branch is dead code. -/
def mongoTranslateExpression (e : Expr) : Except PyError MongoDocT :=
  if "operator" ∈ exprKeys e then
    match e with
    | .binE op l r =>
      if op == "AND" then do
        let tl ← mongoTranslateExpression l
        let tr ← mongoTranslateExpression r
        .ok [("$and", .arr [.doc tl, .doc tr])]
      else if op == "OR" then do
        let tl ← mongoTranslateExpression l
        let tr ← mongoTranslateExpression r
        .ok [("$or", .arr [.doc tl, .doc tr])]
      else if op == "NOT" then
        .error (.valueError "KeyError: spec")
      else .error (.valueError ("Unsupported composite operator: " ++ op))
    | .notE op s =>
      if op == "AND" || op == "OR" then
        .error (.valueError "KeyError: left")
      else if op == "NOT" then do
        let ts ← mongoTranslateExpression s
        .ok [("$not", .doc ts)]
      else .error (.valueError ("Unsupported composite operator: " ++ op))
    | .filterE _ op _ =>
      if op == "AND" || op == "OR" then
        .error (.valueError "KeyError: left")
      else if op == "NOT" then
        .error (.valueError "KeyError: spec")
      else .error (.valueError ("Unsupported composite operator: " ++ op))
  else
    mongoTranslateFilter e

/-- MongoDBSpecificationTranslator.translate: serialise the tree and
translate the expression. -/
def mongoTranslate (s : Spec) : Except PyError MongoDocT :=
  mongoTranslateExpression (toExpression s)

/-- The relational target schema: a model class name together with its
attribute (column) names, the inputs `hasattr(self.model_class, field)`
inspects. -/
structure SqlModel where
  name : String
  fields : List String

/-- Relational boolean expressions produced by the SQLAlchemy
translator. -/
inductive SqlExpr where
  | colCmp (op : String) (field : String) (value : Value)
  | colILike (field : String) (pattern : String)
  | colIn (field : String) (value : Value)
  | colBetween (field : String) (lo hi : Value)
  | colIsNull (field : String)
  | colIsNotNull (field : String)
  | sqlAnd (l r : SqlExpr)
  | sqlOr (l r : SqlExpr)
  | sqlNot (x : SqlExpr)

/-- SQLAlchemySpecificationTranslator._translate_filter: unknown fields
raise a ValueError naming the field and the model class before the
operator dispatch; `like` becomes a case-insensitive match with the
value wrapped in `%` wildcards; `between` is the inclusive range
construct.  With the source's dispatch this function is unreachable from
`translate`. -/
def sqlaTranslateFilter (m : SqlModel) : Expr → Except PyError SqlExpr
  | .filterE field op value =>
    if !(m.fields.contains field) then
      .error (.valueError
        ("Field \x27" ++ field ++ "\x27 not found in model " ++ m.name))
    else if op == "eq" then .ok (.colCmp "==" field value)
    else if op == "ne" then .ok (.colCmp "!=" field value)
    else if op == "lt" then .ok (.colCmp "<" field value)
    else if op == "lte" then .ok (.colCmp "<=" field value)
    else if op == "gt" then .ok (.colCmp ">" field value)
    else if op == "gte" then .ok (.colCmp ">=" field value)
    else if op == "like" then
      .ok (.colILike field ("%" ++ pyStr value ++ "%"))
    else if op == "in" then .ok (.colIn field value)
    else if op == "between" then
      match value with
      | .list (a :: b :: _) => .ok (.colBetween field a b)
      | _ => .error (.valueError "TypeError: between value is not a pair")
    else if op == "is_null" then .ok (.colIsNull field)
    else if op == "is_not_null" then .ok (.colIsNotNull field)
    else .error (.valueError ("Unsupported filter operator: " ++ op))
  | _ => .error (.valueError "KeyError: field")

/-- SQLAlchemySpecificationTranslator._translate_expression together
with `_translate_composite`: same dispatch as the document translator —
every `to_expression()` dictionary has an `operator` key, so leaves fall
into the composite branch and its closing ValueError, and
`_translate_filter` is dead code. -/
def sqlaTranslateExpression (m : SqlModel) (e : Expr) : Except PyError SqlExpr :=
  if "operator" ∈ exprKeys e then
    match e with
    | .binE op l r =>
      if op == "AND" then do
        let tl ← sqlaTranslateExpression m l
        let tr ← sqlaTranslateExpression m r
        .ok (.sqlAnd tl tr)
      else if op == "OR" then do
        let tl ← sqlaTranslateExpression m l
        let tr ← sqlaTranslateExpression m r
        .ok (.sqlOr tl tr)
      else if op == "NOT" then
        .error (.valueError "KeyError: spec")
      else .error (.valueError ("Unsupported composite operator: " ++ op))
    | .notE op s =>
      if op == "AND" || op == "OR" then
        .error (.valueError "KeyError: left")
      else if op == "NOT" then do
        let ts ← sqlaTranslateExpression m s
        .ok (.sqlNot ts)
      else .error (.valueError ("Unsupported composite operator: " ++ op))
    | .filterE _ op _ =>
      if op == "AND" || op == "OR" then
        .error (.valueError "KeyError: left")
      else if op == "NOT" then
        .error (.valueError "KeyError: spec")
      else .error (.valueError ("Unsupported composite operator: " ++ op))
  else
    sqlaTranslateFilter m e

/-- SQLAlchemySpecificationTranslator.translate. -/
def sqlaTranslate (m : SqlModel) (s : Spec) : Except PyError SqlExpr :=
  sqlaTranslateExpression m (toExpression s)

/-- Evaluation when the candidate yields no value for the leaf's field:
the `AttributeError` handler turns the lookup failure into `False`. -/
theorem isSat_of_lookup_none (s : FilterSpec) (c : Candidate)
    (h : pyGetattr? c (specField s) = none) : isSatisfiedBy s c = false := by
  unfold isSatisfiedBy
  rw [h]

/-- Ordering comparability in the model is symmetric, so a `TypeError`
on `a < b` is also a `TypeError` on `b < a`. -/
theorem pyCmp_none_symm {a b : Value} (h : pyCmp a b = none) :
    pyCmp b a = none := by
  cases a <;> cases b <;> simp_all [pyCmp, toNum?]

/-- C1: the map-syntax operator aliases `ilike`, `isnull` and
`isnotnull` are NOT normalised to `like`/`is_null`/`is_not_null`; the
identity entries of `operator_mapping` leave the alias unchanged and
the canonical-vocabulary check then rejects it with
`InvalidValueObjectException` 11003008 carrying the alias.  This
evaluates the parser at the claim's inputs and records the rejection. -/
theorem c1_alias_operator_rejected :
    parse_dict_filters [("name__ilike", "x")] =
      .error (.invalidVO "FilterOperator" "ilike" 11003008) ∧
    parse_dict_filters [("deleted_at__isnull", "")] =
      .error (.invalidVO "FilterOperator" "isnull" 11003008) ∧
    parse_dict_filters [("name__isnotnull", "")] =
      .error (.invalidVO "FilterOperator" "isnotnull" 11003008) :=
  ⟨rfl, rfl, rfl⟩

/-- C2 (counterexample): parsing `["a,eq,1", "b,eq,2,or", "c,eq,3"]`
does not yield the claimed tree ((a AND b) OR c).  Because the parser
collects only present connectors, the `or` recorded after the second
entry is consumed by the FIRST join, producing ((a OR b) AND c), which
differs structurally from the claimed tree. -/
theorem c2_fold_counterexample :
    parse_list_filters ["a,eq,1", "b,eq,2,or", "c,eq,3"] =
      .ok (some (.andS
        (.orS (.leaf (.eqS "a" (.int 1))) (.leaf (.eqS "b" (.int 2))))
        (.leaf (.eqS "c" (.int 3))))) ∧
    Spec.andS (.orS (.leaf (.eqS "a" (.int 1))) (.leaf (.eqS "b" (.int 2))))
        (.leaf (.eqS "c" (.int 3))) ≠
      Spec.orS (.andS (.leaf (.eqS "a" (.int 1))) (.leaf (.eqS "b" (.int 2))))
        (.leaf (.eqS "c" (.int 3))) :=
  ⟨rfl, fun h => Spec.noConfusion h⟩

/-- C2 (amended): the list-syntax fold is still a strict left-to-right
fold, but the connectors are consumed as a compacted queue: only entries
that carry a fourth segment record a connector, the i-th join consumes
the i-th recorded connector, and once the queue is exhausted the
remaining joins use `and`.  In particular the claim's example yields
((a OR b) AND c), and a connector-free pair joins with the `and`
default. -/
theorem c2_fold_amended :
    parse_list_filters ["a,eq,1", "b,eq,2,or", "c,eq,3"] =
      .ok (some (.andS
        (.orS (.leaf (.eqS "a" (.int 1))) (.leaf (.eqS "b" (.int 2))))
        (.leaf (.eqS "c" (.int 3))))) ∧
    parse_list_filters ["a,eq,1", "b,eq,2"] =
      .ok (some (.andS (.leaf (.eqS "a" (.int 1)))
        (.leaf (.eqS "b" (.int 2))))) ∧
    (∀ (s : Spec) (rest : List Spec),
      combineAux s rest [] = rest.foldl Spec.andS s) ∧
    (∀ (s t : Spec) (rest : List Spec) (c : String) (conns : List String),
      combineAux s (t :: rest) (c :: conns) =
        combineAux (joinConn c s t) rest conns) := by
  refine ⟨rfl, rfl, ?_, fun s t rest c conns => rfl⟩
  intro s rest
  induction rest generalizing s with
  | nil => rfl
  | cons x xs ih =>
    show combineAux (joinConn "and" s x) xs [] = _
    rw [ih]
    rfl

/-- C3: serialising any factory-built leaf with `to_expression()` and
rebuilding from the resulting (field, operator, value) triple through
`SpecificationFactory.create` reconstructs the leaf exactly, so the
rebuilt specification's `is_satisfied_by` agrees with the original on
every candidate, for all eleven operator tags. -/
theorem c3_leaf_roundtrip (s : FilterSpec) :
    ∃ s2, create (specField s) (specOperator s) (exprValue s) = .ok s2 ∧
      ∀ c : Candidate, isSatisfiedBy s2 c = isSatisfiedBy s c := by
  refine ⟨s, ?_, fun c => rfl⟩
  cases s <;> rfl

/-- C4: the document-oriented translator cannot produce the claimed
`$not` wrapper for NOT over a composite of leaves, because every leaf's
serialised dictionary also carries an `operator` key and is therefore
mis-routed into `_translate_composite`, which raises
`ValueError("Unsupported composite operator: <leaf op>")`.  Translating
NOT(A AND B) for any leaves A and B fails with the first leaf's
operator tag in the message. -/
theorem c4_mongo_not_translation_fails (a b : FilterSpec) :
    mongoTranslate (.notS (.andS (.leaf a) (.leaf b))) =
      .error (.valueError
        ("Unsupported composite operator: " ++ specOperator a)) := by
  cases a <;> rfl

/-- C5: leaf evaluation is fail-closed — a candidate yielding no value
for the leaf's field evaluates to `False`, and the four ordering
operators evaluate to `False` whenever the candidate's field value and
the stored value are not order-comparable. -/
theorem c5_fail_closed :
    (∀ (s : FilterSpec) (c : Candidate),
      pyGetattr? c (specField s) = none → isSatisfiedBy s c = false) ∧
    (∀ (f : String) (v fv : Value) (c : Candidate),
      pyGetattr? c f = some fv → pyCmp fv v = none →
        isSatisfiedBy (.ltS f v) c = false ∧
        isSatisfiedBy (.lteS f v) c = false ∧
        isSatisfiedBy (.gtS f v) c = false ∧
        isSatisfiedBy (.gteS f v) c = false) := by
  refine ⟨fun s c h => isSat_of_lookup_none s c h, ?_⟩
  intro f v fv c hg hc
  refine ⟨?_, ?_, ?_, ?_⟩ <;>
    simp [isSatisfiedBy, specField, hg, compareValues, pyLtB, pyLeB, hc,
      pyCmp_none_symm hc]

/-- Witness for C5 at concrete inputs: a missing attribute and an
incomparable int/str ordering comparison both evaluate to `False`. -/
theorem c5_fail_closed_witness :
    isSatisfiedBy (.eqS "name" (.int 1)) (.obj []) = false ∧
    isSatisfiedBy (.ltS "age" (.str "x")) (.obj [("age", .int 3)]) = false :=
  ⟨c5_fail_closed.1 (.eqS "name" (.int 1)) (.obj []) rfl,
   (c5_fail_closed.2 "age" (.str "x") (.int 3)
     (.obj [("age", .int 3)]) rfl rfl).1⟩

/-- C8: the relational translator never reaches its unknown-field check:
every leaf's serialised dictionary carries an `operator` key, so leaves
are mis-routed into `_translate_composite` and fail with
`ValueError("Unsupported composite operator: <leaf op>")` regardless of
whether the field is present on the model; the field/entity-naming
failure sits in unreachable code. -/
theorem c8_sqla_leaf_translation_fails (m : SqlModel) (l : FilterSpec) :
    sqlaTranslate m (.leaf l) =
      .error (.valueError
        ("Unsupported composite operator: " ++ specOperator l)) := by
  cases l <;> rfl

/-- C6: the scalar coercion `_convert_single_value` (shared by both
surface syntaxes) agrees with the specification's rule order on every
token — null words first, then booleans, then integers, then
dot-containing decimals, otherwise the string — and the `in` operator
splits the raw value on `|` and coerces each stripped piece by the same
rules. -/
theorem c6_value_coercion :
    (∀ s : String, convert_single_value s = coerce_value_spec s) ∧
    (∀ s : String, parse_value s "in" =
      .ok (.list ((splitCh '|' s.data).map
        (fun p => coerce_value_spec (String.mk (pyStripCh p)))))) := by
  have h1 : ∀ s : String, convert_single_value s = coerce_value_spec s := by
    intro s
    unfold convert_single_value coerce_value_spec
    by_cases hn : (pyLower s == "null" || pyLower s == "none" ||
        pyLower s == "") = true
    · simp [hn]
    · by_cases ht : (pyLower s == "true") = true
      · simp [hn, ht]
      · by_cases hf : (pyLower s == "false") = true
        · simp [hn, ht, hf]
        · simp [hn, ht, hf]
  refine ⟨h1, fun s => ?_⟩
  have h2 : parse_value s "in" =
      .ok (.list ((splitCh '|' s.data).map
        (fun p => convert_single_value (String.mk (pyStripCh p))))) := rfl
  rw [h2, List.map_congr_left (fun p _ => h1 (String.mk (pyStripCh p)))]

/-- C7: a map-syntax `between` filter splits its raw value on `|`;
exactly two pieces build the inclusive-range leaf from the two coerced
pieces, and any other piece count raises `InvalidValueObjectException`
11003010 carrying the raw value string. -/
theorem c7_between_arity (v : String) :
    (∀ x y, splitCh '|' v.data = [x, y] →
      parse_dict_filters [("age__between", v)] =
        .ok (some (.leaf (.betweenS "age"
          (convert_single_value (String.mk (pyStripCh x)))
          (convert_single_value (String.mk (pyStripCh y))))))) ∧
    ((splitCh '|' v.data).length ≠ 2 →
      parse_dict_filters [("age__between", v)] =
        .error (.invalidVO "BetweenValue" v 11003010)) := by
  have he : parse_dict_entry "age__between" v =
      (parse_value v "between").bind (fun val => create "age" "between" val) :=
    rfl
  have hv : parse_value v "between" =
      if (splitCh '|' v.data).length ≠ 2 then
        .error (.invalidVO "BetweenValue" v 11003010)
      else
        .ok (.list ((splitCh '|' v.data).map
          (fun p => convert_single_value (String.mk (pyStripCh p))))) := rfl
  constructor
  · intro x y h
    have hv2 : parse_value v "between" = .ok (.list
        [convert_single_value (String.mk (pyStripCh x)),
         convert_single_value (String.mk (pyStripCh y))]) := by
      rw [hv, h]
      simp
    have he2 : parse_dict_entry "age__between" v = .ok (.betweenS "age"
        (convert_single_value (String.mk (pyStripCh x)))
        (convert_single_value (String.mk (pyStripCh y)))) := by
      rw [he, hv2]
      rfl
    simp only [parse_dict_filters, parseDictSpecs, he2]
    rfl
  · intro hn
    have hv2 : parse_value v "between" =
        .error (.invalidVO "BetweenValue" v 11003010) := by
      rw [hv, if_pos hn]
    have he2 : parse_dict_entry "age__between" v =
        .error (.invalidVO "BetweenValue" v 11003010) := by
      rw [he, hv2]
      rfl
    simp only [parse_dict_filters, parseDictSpecs, he2]
    rfl

/-- Witness for C7 at the claim's concrete inputs: `"18|30"` parses to
the inclusive-range leaf over 18 and 30, `"18|30|40"` raises the arity
failure carrying the raw string. -/
theorem c7_between_arity_witness :
    parse_dict_filters [("age__between", "18|30")] =
      .ok (some (.leaf (.betweenS "age" (.int 18) (.int 30)))) ∧
    parse_dict_filters [("age__between", "18|30|40")] =
      .error (.invalidVO "BetweenValue" "18|30|40" 11003010) :=
  ⟨(c7_between_arity "18|30").1 "18".data "30".data rfl,
   (c7_between_arity "18|30|40").2 (by decide)⟩

/-- Splitting a list without the separator yields the single whole piece. -/
theorem splitCh_not_mem {sep : Char} (cs : List Char) (h : sep ∉ cs) :
    splitCh sep cs = [cs] := by
  induction cs with
  | nil => rfl
  | cons c t ih =>
    have hc : ¬ c = sep := fun hh => h (hh ▸ List.mem_cons_self c t)
    have ht : sep ∉ t := fun hh => h (List.mem_cons_of_mem c hh)
    unfold splitCh
    rw [if_neg hc, ih ht]

/-- Splitting at the first separator occurrence detaches the prefix. -/
theorem splitCh_append_sep {sep : Char} (xs ys : List Char) (h : sep ∉ xs) :
    splitCh sep (xs ++ sep :: ys) = xs :: splitCh sep ys := by
  induction xs with
  | nil =>
    show splitCh sep (sep :: ys) = [] :: splitCh sep ys
    simp [splitCh]
  | cons c t ih =>
    have hc : ¬ c = sep := fun hh => h (hh ▸ List.mem_cons_self c t)
    have ht : sep ∉ t := fun hh => h (List.mem_cons_of_mem c hh)
    show splitCh sep (c :: (t ++ sep :: ys)) = (c :: t) :: splitCh sep ys
    simp only [splitCh]
    rw [if_neg hc, ih ht]

/-- A `dropWhile` fixpoint starting with `x` implies the predicate
rejects `x`. -/
theorem dropWhile_head_false {p : Char → Bool} {x : Char} {xs : List Char}
    (h : List.dropWhile p (x :: xs) = x :: xs) : p x = false := by
  by_contra hx
  rw [Bool.not_eq_false] at hx
  rw [List.dropWhile_cons_of_pos hx] at h
  have hle := (List.dropWhile_sublist (l := xs) p).length_le
  rw [h] at hle
  simp at hle

/-- Right-stripping is unaffected by prepending `name,` to a token that
is already right-strip-fixed: the comma blocks the strip when the token
is empty, and the token's own non-space last character blocks it
otherwise. -/
theorem stripTrail_name_comma (d : List Char) (hT : stripTrail d = d) :
    stripTrail ('n' :: 'a' :: 'm' :: 'e' :: ',' :: d) =
      'n' :: 'a' :: 'm' :: 'e' :: ',' :: d := by
  cases hd : d with
  | nil => decide
  | cons c t =>
    rw [← hd]
    have hrev : List.dropWhile isSpaceCh d.reverse = d.reverse := by
      have h2 := congrArg List.reverse hT
      unfold stripTrail at h2
      simpa using h2
    have hne : d.reverse ≠ [] := by
      rw [hd]
      simp
    obtain ⟨x, xs, hx⟩ := List.exists_cons_of_ne_nil hne
    have hxf : isSpaceCh x = false := dropWhile_head_false (hx ▸ hrev)
    unfold stripTrail
    have hrw : ('n' :: 'a' :: 'm' :: 'e' :: ',' :: d).reverse =
        x :: (xs ++ [',', 'e', 'm', 'a', 'n']) := by
      simp [hx]
    rw [hrw, List.dropWhile_cons_of_neg (by simp [hxf])]
    have : x :: (xs ++ [',', 'e', 'm', 'a', 'n']) =
        ('n' :: 'a' :: 'm' :: 'e' :: ',' :: d).reverse := hrw.symm
    rw [this, List.reverse_reverse]

/-- C9: the single-entry sort grammar parses `field[,asc|desc]` with
default direction `asc` — `"created_at,desc"` and `"name"` produce the
claimed one-entry criteria — and for every direction token other than
`asc`/`desc` (after trimming and lower-casing) the parser raises
`InvalidValueObjectException` 11003012 carrying the offending token. -/
theorem c9_sort_grammar :
    parse_sort "created_at,desc" = .ok (some [("created_at", "desc")]) ∧
    parse_sort "name" = .ok (some [("name", "asc")]) ∧
    ∀ d : String, stripLead d.data = d.data → stripTrail d.data = d.data →
      ',' ∉ d.data →
      pyLower d ≠ "asc" → pyLower d ≠ "desc" →
      parse_sort ("name," ++ d) =
        .error (.invalidVO "SortDirection" (pyLower d) 11003012) := by
  refine ⟨rfl, rfl, ?_⟩
  intro d hL hT hC hA hD
  show parseSortCh ("name," ++ d).data = _
  have hdata : ("name," ++ d).data = 'n' :: 'a' :: 'm' :: 'e' :: ',' :: d.data :=
    rfl
  rw [hdata]
  have hstrip : pyStripCh ('n' :: 'a' :: 'm' :: 'e' :: ',' :: d.data) =
      'n' :: 'a' :: 'm' :: 'e' :: ',' :: d.data := by
    unfold pyStripCh
    rw [stripTrail_name_comma d.data hT]
    rfl
  have hsplit : splitCh ',' ('n' :: 'a' :: 'm' :: 'e' :: ',' :: d.data) =
      ['n', 'a', 'm', 'e'] :: [d.data] := by
    have h0 : ('n' :: 'a' :: 'm' :: 'e' :: ',' :: d.data) =
        ['n', 'a', 'm', 'e'] ++ ',' :: d.data := rfl
    rw [h0, splitCh_append_sep _ _ (by decide), splitCh_not_mem _ hC]
  have hsd : pyStripCh d.data = d.data := by
    unfold pyStripCh
    rw [hT, hL]
  have hA2 : ¬ (d.data.map Char.toLower = "asc".data) := fun h =>
    hA (congrArg String.mk h)
  have hD2 : ¬ (d.data.map Char.toLower = "desc".data) := fun h =>
    hD (congrArg String.mk h)
  have hfield : pyStripCh ['n', 'a', 'm', 'e'] = ['n', 'a', 'm', 'e'] := by
    decide
  simp [parseSortCh, hstrip, hsplit, hsd, hfield, hA2, hD2, pyLower]

/-- Witness for C9's universal part at the claim's concrete token:
`"name,sideways"` raises the sort-direction failure carrying
`"sideways"`. -/
theorem c9_sort_grammar_witness :
    parse_sort ("name," ++ "sideways") =
      .error (.invalidVO "SortDirection" (pyLower "sideways") 11003012) :=
  c9_sort_grammar.2.2 "sideways" (by decide) (by decide) (by decide)
    (by decide) (by decide)

end Backbone
